import Mathlib

/-!
Shallow embedding of `napalm_mos/mos.py` (the Metamako MOS NAPALM driver) and
proofs about its parsing and normalization routines.

Conventions used throughout:
* Python strings are modelled as Lean `String` / `List Char`.
* Python regular expressions are modelled by hand-written matchers that follow
  the exact pattern of the source, including Python's greedy/backtracking
  behaviour where it is observable.
* Python floats appearing as scale factors (`1e-6`, `1e-3`) are modelled as the
  exact rationals they denote in decimal.
* Fallible Python code is modelled with `Option`/`Except`; a raised exception is
  an `Except.error`.
* Python module-level name resolution matters for this file (`pyeapi`, `ast` and
  `CommandErrorException` are referenced but never bound by any import); the set
  of names actually bound at module level is embedded as `moduleBoundNames` and
  name lookups in exception handlers consult it.
-/

namespace NapalmMos

/-! ## Small Python string primitives -/

/-- Python `\s` / `str.strip()` whitespace characters (ASCII range). -/
def isPySpace (c : Char) : Bool :=
  c = ' ' || c = '\t' || c = '\n' || c = '\r' || c = '\x0b' || c = '\x0c'

/-- `str.strip()`: drop leading and trailing whitespace. -/
def pyStrip (s : List Char) : List Char :=
  ((s.dropWhile isPySpace).reverse.dropWhile isPySpace).reverse

/-- `'pat' in s` (Python substring containment). -/
def containsSub (hay pat : List Char) : Bool :=
  hay.tails.any (fun t => pat.isPrefixOf t)

/-- `s.startswith(pre)`. -/
def pyStartsWith (s pre : String) : Bool :=
  pre.data.isPrefixOf s.data

/-- Digit run to the number Python's `int()` yields on it. -/
def digitsToNat (ds : List Char) : Nat :=
  ds.foldl (fun n c => 10 * n + (c.toNat - '0'.toNat)) 0

/-! ## Python dict operations (insertion-ordered association lists) -/

/-- `d[k] = v` on a Python dict: replace in place if the key exists,
otherwise append at the end. -/
def dictUpd {α : Type} : List (String × α) → String → α → List (String × α)
  | [], k, v => [(k, v)]
  | (k', v') :: t, k, v =>
    if k' = k then (k', v) :: t else (k', v') :: dictUpd t k v

/-- `d.get(k, default)`. -/
def dictGet {α : Type} : List (String × α) → String → α → α
  | [], _, d => d
  | (k', v) :: t, k, d => if k' = k then v else dictGet t k d

/-- `k in d` / plain lookup. -/
def lookupD {α : Type} : List (String × α) → String → Option α
  | [], _ => none
  | (k', v) :: t, k => if k' = k then some v else lookupD t k

/-! ## Module-level bound names of mos.py

From the import statements and top-level assignments of `mos.py`
(lines 25-50): `from __future__ import print_function, unicode_literals`,
`import re`, `from datetime import timedelta`,
`from pyeapi.client import Node as EapiNode`,
`from pyeapi.eapilib import HttpsEapiConnection, HttpEapiConnection`,
`from pyeapi.eapilib import ConnectionError`, `import napalm_base.helpers`,
`from napalm_base.base import NetworkDriver`,
`from napalm_base.utils import string_parsers, py23_compat`,
`from napalm_base.exceptions import ConnectionException`, plus the module
globals `TRANSPORTS` and `MOSDriver`.  Notably absent: `pyeapi`, `ast`, and
`CommandErrorException`. -/
def moduleBoundNames : List String :=
  ["print_function", "unicode_literals", "re", "timedelta", "EapiNode",
   "HttpsEapiConnection", "HttpEapiConnection", "ConnectionError",
   "napalm_base", "NetworkDriver", "string_parsers", "py23_compat",
   "ConnectionException", "TRANSPORTS", "MOSDriver"]

/-- Whether a bare name used inside `MOSDriver` methods resolves at module
level (builtins like `TypeError` are modelled separately). -/
def moduleBinds (n : String) : Bool := moduleBoundNames.contains n

/-! ## C7: get_interfaces is_up / is_enabled derivation (mos.py lines 175-197)

```
if values['rx'].startswith('up'):
    interfaces[interface]['is_up'] = True
    interfaces[interface]['is_enabled'] = True
else:
    interfaces[interface]['is_up'] = False
    if 'shutdown' in values['rx']:
        interfaces[interface]['is_enabled'] = False
    else:
        interfaces[interface]['is_enabled'] = True
```
-/

/-- `(is_up, is_enabled)` computed from the structured `rx` field. -/
def interfaceFlags (rx : String) : Bool × Bool :=
  if pyStartsWith rx "up" then (true, true)
  else (false, if containsSub rx.data "shutdown".data then false else true)

/-! ## C8: get_lldp_neighbors row filtering (mos.py lines 199-219) -/

structure LldpRow where
  Port : String
  Neighbor_Device : String
  Neighbor_Port : String
deriving DecidableEq

/-- The guard `n['Neighbor_Device'] != '' and n['Neighbor_Port'] != ''`. -/
def lldpRowKept (n : LldpRow) : Bool :=
  n.Neighbor_Device ≠ "" && n.Neighbor_Port ≠ ""

/-- Group-by-port step: create the key with an empty list when absent, then
append, as the source does. -/
def dictAppend {α : Type} : List (String × List α) → String → α → List (String × List α)
  | [], k, v => [(k, [v])]
  | (k', vs) :: t, k, v =>
    if k' = k then (k', vs ++ [v]) :: t else (k', vs) :: dictAppend t k v

def lldpStep (m : List (String × List (String × String))) (n : LldpRow) :
    List (String × List (String × String)) :=
  if lldpRowKept n then dictAppend m n.Port (n.Neighbor_Device, n.Neighbor_Port) else m

/-- `get_lldp_neighbors` over the structured rows of `show lldp neighbor`. -/
def get_lldp_neighbors (rows : List LldpRow) : List (String × List (String × String)) :=
  rows.foldl lldpStep []

/-! ## C2: get_config (mos.py lines 534-555)

The source computes `get_startup` / `get_running` from the selector, and on an
unrecognized selector evaluates `Exception("Wrong retrieve filter: ...")`
WITHOUT raising it (line 549 has no `raise`), so execution falls through and
the two placeholder `'#'` commands are run.  The model's `Except` return type
would carry a raised exception; the source never produces one here. -/

structure ConfigSnapshot where
  startup : String
  running : String
  candidate : String
deriving DecidableEq

inductive PyError where
  | typeError (msg : String)
  | nameError (missing : String)
  | commandErrorException (msg : String)
  | uncaught (msg : String)
deriving DecidableEq

/-- `get_config`; `device` maps a CLI command to its text output. -/
def get_config (retrieve : String) (device : String → String) :
    Except PyError ConfigSnapshot :=
  let get_startup := retrieve = "all" || retrieve = "startup"
  let get_running := retrieve = "all" || retrieve = "running"
  -- line 549: `Exception("Wrong retrieve filter: {}".format(retrieve))`
  -- constructs an exception object but never raises it; no error path exists.
  Except.ok
    { startup := if get_startup then device "show startup-config" else ""
      running := if get_running then device "show running-config" else ""
      candidate := "" }

/-! ## C4: _parse_mm_speed (mos.py lines 149-164)

```
factormap = \x7b '' : 1e-6, 'k' : 1e-3, 'M' : 1, 'G' : 1000, 'T' : 1000000 \x7d
match = re.match(r'^(?P<speed>\d+)(?P<unit>\D)?$', speed)
if match:
    match_dict = match.groupdict('')
    return int(int(match_dict['speed'])*factormap[match_dict['unit']])
return 0
```
A unit character outside the table raises `KeyError` (modelled as `.error`).
-/

/-- The `factormap` dict; keys are the unit group (defaulted to `''`).  The
source values `1e-6, 1e-3, 1, 1000, 1000000` are modelled as the exact
rationals they denote in decimal, encoded as numerator/denominator pairs so
that the computation stays kernel-reducible. -/
def factormap (unit : String) : Option (Nat × Nat) :=
  if unit = "" then some (1, 1000000)
  else if unit = "k" then some (1, 1000)
  else if unit = "M" then some (1, 1)
  else if unit = "G" then some (1000, 1)
  else if unit = "T" then some (1000000, 1)
  else none

/-- Matcher for `^(?P<speed>\d+)(?P<unit>\D)?$`: a nonempty digit run, then an
optional single non-digit; `$` accepts end of string or a final newline.  The
optional group is greedy, as in Python. -/
def speedMatch (s : List Char) : Option (List Char × Option Char) :=
  let ds := s.takeWhile Char.isDigit
  let rest := s.dropWhile Char.isDigit
  if ds = [] then none
  else
    match rest with
    | [] => some (ds, none)
    | c :: t => if t = [] || t = ['\n'] then some (ds, some c) else none

/-- `_parse_mm_speed`.  `int(int(speed) * factor)` truncates toward zero; the
operand is nonnegative, so it equals the floor `n * num / den` in exact
arithmetic (Nat division). -/
def parse_mm_speed (s : String) : Except String Nat :=
  match speedMatch s.data with
  | none => Except.ok 0
  | some (ds, u) =>
    let unitStr := match u with | none => "" | some c => String.mk [c]
    match factormap unitStr with
    | none => Except.error "KeyError"
    | some f => Except.ok (digitsToNat ds * f.1 / f.2)

/-! ## C1: _RE_UPTIME and the uptime conversion in get_facts
(mos.py lines 55-56 and 130-134)

```
_RE_UPTIME = re.compile(r"^((?P<day>\d+)\s+days?,\s+)?
                         (?P<hour>\d+):(?P<minute>\d+):(?P<second>\d+)", re.VERBOSE)
...
u_match = re.match(self._RE_UPTIME, version['uptime']).groupdict()
if u_match['day'] is None:
    u_match['day'] = 0
uptime = timedelta(days=int(u_match['day']), hours=int(u_match['hour']),
                   seconds=int(u_match['second'])).total_seconds()
```
Note the `timedelta` call passes `days`, `hours` and `seconds` only: the
captured `minute` group is never used. -/

/-- The optional day-group `((?P<day>\d+)\s+days?,\s+)?`: digits, whitespace,
`day`, optional `s` (greedy), a comma, whitespace.  Returns the day count and
the remaining input. -/
def matchDayGroup (s : List Char) : Option (Nat × List Char) :=
  let ds := s.takeWhile Char.isDigit
  let r1 := s.dropWhile Char.isDigit
  if ds = [] then none
  else if r1.takeWhile isPySpace = [] then none
  else
    match r1.dropWhile isPySpace with
    | 'd' :: 'a' :: 'y' :: r3 =>
      let afterComma : Option (List Char) :=
        match r3 with
        | 's' :: ',' :: r5 => some r5
        | ',' :: r5 => some r5
        | _ => none
      match afterComma with
      | none => none
      | some r5 =>
        if r5.takeWhile isPySpace = [] then none
        else some (digitsToNat ds, r5.dropWhile isPySpace)
    | _ => none

/-- `(?P<hour>\d+):(?P<minute>\d+):(?P<second>\d+)` as a prefix match
(`re.match` allows trailing text, and the pattern has no `$`). -/
def matchHMS (s : List Char) : Option (Nat × Nat × Nat) :=
  let h := s.takeWhile Char.isDigit
  if h = [] then none
  else
    match s.dropWhile Char.isDigit with
    | ':' :: r2 =>
      let m := r2.takeWhile Char.isDigit
      if m = [] then none
      else
        match r2.dropWhile Char.isDigit with
        | ':' :: r4 =>
          let sec := r4.takeWhile Char.isDigit
          if sec = [] then none
          else some (digitsToNat h, digitsToNat m, digitsToNat sec)
        | _ => none
    | _ => none

/-- `re.match(_RE_UPTIME, s).groupdict()`: groups `(day?, hour, minute,
second)`.  The optional day group is tried greedily; if the rest of the
pattern then fails, the engine retries without it. -/
def re_uptime_match (s : List Char) : Option (Option Nat × Nat × Nat × Nat) :=
  match matchDayGroup s with
  | some (d, rest) =>
    match matchHMS rest with
    | some (h, m, sec) => some (some d, h, m, sec)
    | none =>
      match matchHMS s with
      | some (h, m, sec) => some (none, h, m, sec)
      | none => none
  | none =>
    match matchHMS s with
    | some (h, m, sec) => some (none, h, m, sec)
    | none => none

/-- The uptime computation of `get_facts`:
`timedelta(days=day, hours=hour, seconds=second).total_seconds()` as an
integer.  The regex's `minute` group is captured but not passed to
`timedelta`, so it does not appear in the sum. -/
def get_facts_uptime (uptime : String) : Option Nat :=
  (re_uptime_match uptime.data).map
    (fun g => g.1.getD 0 * 86400 + g.2.1 * 3600 + g.2.2.2)

/-! ## C5: get_interfaces_counters (mos.py lines 221-242) -/

/-- One interface's entry in the structured output of
`show interfaces counters errors`; the device reports both a `tx` and an `rx`
field, each possibly absent. -/
structure ErrRow where
  tx : Option Int
  rx : Option Int
deriving DecidableEq

/-- One interface's entry in the structured output of
`show interfaces counters`. -/
structure CountersRow where
  txoctets : Option Int
  rxoctets : Option Int
  txucastpkts : Option Int
  rxucastpkts : Option Int
  txmcastpkts : Option Int
  rxmcastpkts : Option Int
  txbcastpkts : Option Int
  rxbcastpkts : Option Int
deriving DecidableEq

structure IfCounters where
  tx_errors : Int
  rx_errors : Int
  tx_discards : Int
  rx_discards : Int
  tx_octets : Int
  rx_octets : Int
  tx_unicast_packets : Int
  rx_unicast_packets : Int
  tx_multicast_packets : Int
  rx_multicast_packets : Int
  tx_broadcast_packets : Int
  rx_broadcast_packets : Int
deriving DecidableEq

/-- `int(errorsdict.get(interface, \x7b\x7d).get('tx', -1))` — the expression
the source uses for BOTH `tx_errors` (line 229) and `rx_errors` (line 230);
the `rx` field of the errors payload is never read. -/
def errTx (errors : List (String × ErrRow)) (iface : String) : Int :=
  ((dictGet errors iface ⟨none, none⟩).tx).getD (-1)

def mkIfCounters (errors : List (String × ErrRow)) (iface : String)
    (c : CountersRow) : IfCounters :=
  { tx_errors := errTx errors iface
    rx_errors := errTx errors iface
    tx_discards := -1
    rx_discards := -1
    tx_octets := c.txoctets.getD (-1)
    rx_octets := c.rxoctets.getD (-1)
    tx_unicast_packets := c.txucastpkts.getD (-1)
    rx_unicast_packets := c.rxucastpkts.getD (-1)
    tx_multicast_packets := c.txmcastpkts.getD (-1)
    rx_multicast_packets := c.rxmcastpkts.getD (-1)
    tx_broadcast_packets := c.txbcastpkts.getD (-1)
    rx_broadcast_packets := c.rxbcastpkts.getD (-1) }

/-- `get_interfaces_counters` over the two structured payloads. -/
def get_interfaces_counters (counters : List (String × CountersRow))
    (errors : List (String × ErrRow)) : List (String × IfCounters) :=
  counters.map (fun p => (p.1, mkIfCounters errors p.1 p.2))

/-! ## Python float values

All floats produced by the parsing routines come from `float()` on decimal
digit strings.  They are modelled exactly as signed decimal fixed-point
values `(-1)^neg * mant / 10^scale`; IEEE rounding is not observable by any
claim proved here, and no arithmetic is ever performed on them. -/

structure PyFloat where
  neg : Bool
  mant : Nat
  scale : Nat
deriving DecidableEq

/-- The literal `0.0`. -/
def pyZeroFloat : PyFloat := ⟨false, 0, 0⟩

/-- `float(s)` on strings drawn from character classes of the form
`[0-9.-]`: an optional leading sign, then digits with at most one dot and at
least one digit (exponent/inf/nan spellings cannot occur in those classes).
Returns `none` when `float()` raises `ValueError`. -/
def pyFloatParse (s : List Char) : Option PyFloat :=
  let signed : Bool × List Char :=
    match s with
    | '-' :: t => (true, t)
    | '+' :: t => (false, t)
    | t => (false, t)
  let body := signed.2
  if body.any (fun c => !(c.isDigit || c = '.')) then none
  else if (body.filter (fun c => c = '.')).length > 1 then none
  else if body.filter Char.isDigit = [] then none
  else
    let ip := body.takeWhile Char.isDigit
    match body.dropWhile Char.isDigit with
    | [] => some ⟨signed.1, digitsToNat ip, 0⟩
    | '.' :: frac => some ⟨signed.1, digitsToNat (ip ++ frac), frac.length⟩
    | _ => none

/-- `int(s)` on strings drawn from digit classes: optional sign then digits.
Returns `none` when `int()` raises `ValueError`. -/
def pyIntParse (s : List Char) : Option Int :=
  let signed : Bool × List Char :=
    match s with
    | '-' :: t => (true, t)
    | '+' :: t => (false, t)
    | t => (false, t)
  let body := signed.2
  if body = [] || body.any (fun c => !c.isDigit) then none
  else some (if signed.1 then -(digitsToNat body : Int) else (digitsToNat body : Int))

/-! ## C3: cli (mos.py lines 338-362)

```
if not isinstance(commands, list):
    raise TypeError('Please enter a valid list of commands!')
for command in commands:
    try:
        cli_output[...] = self.device.run_commands([command], ...)[0].get('output')
    except pyeapi.eapilib.CommandError:
        cli_output[...] = 'Invalid command: "..."'
        raise CommandErrorException(str(cli_output))
    except Exception as e:
        cli_output[...] = 'Unable to execute command "...": ...'
        raise CommandErrorException(str(cli_output))
```
When the `try` body raises, Python first evaluates the expression of the
first `except` clause, `pyeapi.eapilib.CommandError`.  The module never binds
the name `pyeapi` (only `from pyeapi.client import ...` forms are used), so
that lookup itself raises `NameError`, which propagates; neither handler body
ever runs, and `CommandErrorException` (also unbound) is never reached. -/

/-- Outcome of one `device.run_commands([command])` call. -/
inductive CmdOutcome where
  | ok (output : String)
  | commandError (msg : String)
  | failure (msg : String)
deriving DecidableEq

/-- The `commands` argument of `cli`: either a Python list of strings or a
value of some other type. -/
inductive PyVal where
  | list (cmds : List String)
  | nonList (descr : String)

def pyStrRepr (s : String) : String := "'" ++ s ++ "'"

/-- `str()` of a Python dict of strings (the strings this code produces
contain no quotes, so simple quoting suffices). -/
def pyDictRepr (m : List (String × String)) : String :=
  "\x7b" ++ String.intercalate ", "
    (m.map (fun p => pyStrRepr p.1 ++ ": " ++ pyStrRepr p.2)) ++ "\x7d"

/-- The per-command loop of `cli`. -/
def runCliLoop (device : String → CmdOutcome) :
    List String → List (String × String) → Except PyError (List (String × String))
  | [], acc => Except.ok acc
  | cmd :: rest, acc =>
    match device cmd with
    | CmdOutcome.ok out => runCliLoop device rest (dictUpd acc cmd out)
    | CmdOutcome.commandError _ =>
      if moduleBinds "pyeapi" then
        -- handler of lines 350-355 (dead in this module: `pyeapi` is unbound)
        let acc' := dictUpd acc cmd ("Invalid command: \"" ++ cmd ++ "\"")
        if moduleBinds "CommandErrorException" then
          Except.error (PyError.commandErrorException (pyDictRepr acc'))
        else Except.error (PyError.nameError "CommandErrorException")
      else Except.error (PyError.nameError "pyeapi")
    | CmdOutcome.failure msg =>
      if moduleBinds "pyeapi" then
        -- handler of lines 356-360 (dead in this module for the same reason)
        let acc' := dictUpd acc cmd ("Unable to execute command \"" ++ cmd ++ "\": " ++ msg)
        if moduleBinds "CommandErrorException" then
          Except.error (PyError.commandErrorException (pyDictRepr acc'))
        else Except.error (PyError.nameError "CommandErrorException")
      else Except.error (PyError.nameError "pyeapi")

/-- `cli`. -/
def cli (device : String → CmdOutcome) : PyVal → Except PyError (List (String × String))
  | PyVal.nonList _ =>
    Except.error (PyError.typeError "Please enter a valid list of commands!")
  | PyVal.list cmds => runCliLoop device cmds []

/-! ## C6: _RE_ARP and get_arp_table (mos.py lines 57-61 and 364-392)

```
_RE_ARP = re.compile(r"^(?P<address>\d\x7b1,3\x7d(\.\d\x7b1,3\x7d)\x7b3\x7d)
                      \s+\S+\s+ (?P<hwAddress>([0-9A-F]\x7b2\x7d[:-])\x7b5\x7d[0-9A-F]\x7b2\x7d)
                      \s+\S+\s+ (?P<interface>\S+)$", VERBOSE | IGNORECASE)
```
(spelled here with explicit repetition counts).  `get_arp_table` guards the
command with `except pyeapi.eapilib.CommandError: return []`; as in `cli`,
evaluating that clause raises `NameError` because `pyeapi` is unbound. -/

def isHexDigitPy (c : Char) : Bool :=
  c.isDigit || ('A' ≤ c && c ≤ 'F') || ('a' ≤ c && c ≤ 'f')

/-- Two hex digits. -/
def parseHexPair : List Char → Option (Char × Char × List Char)
  | a :: b :: t => if isHexDigitPy a && isHexDigitPy b then some (a, b, t) else none
  | _ => none

/-- `([0-9A-F]\x7b2\x7d[:-])\x7bn\x7d[0-9A-F]\x7b2\x7d`: n separated hex
pairs followed by a final pair; returns the matched text and the rest. -/
def parseMacSegs : Nat → List Char → Option (List Char × List Char)
  | 0, s => (parseHexPair s).map (fun p => ([p.1, p.2.1], p.2.2))
  | n + 1, s => do
    let (a, b, t) ← parseHexPair s
    match t with
    | c :: t2 =>
      if c = ':' || c = '-' then do
        let (rest, t3) ← parseMacSegs n t2
        some (a :: b :: c :: rest, t3)
      else none
    | [] => none

/-- `\d\x7b1,3\x7d` followed by a required context character: the digit run
must have length 1 to 3 (a longer run cannot match, since the next pattern
element is never a digit). -/
def parseIpOctet (s : List Char) : Option (List Char × List Char) :=
  let ds := s.takeWhile Char.isDigit
  if ds = [] || ds.length > 3 then none else some (ds, s.dropWhile Char.isDigit)

/-- `\s+`: require a nonempty whitespace run. -/
def expectWs (s : List Char) : Option (List Char) :=
  if s.takeWhile isPySpace = [] then none else some (s.dropWhile isPySpace)

/-- `\S+` in a position whose value is discarded. -/
def expectTok (s : List Char) : Option (List Char) :=
  if s.takeWhile (fun c => !isPySpace c) = [] then none
  else some (s.dropWhile (fun c => !isPySpace c))

def expectDot : List Char → Option (List Char)
  | '.' :: t => some t
  | _ => none

structure ArpEntry where
  interface : String
  mac : String
  ip : String
  age : PyFloat
deriving DecidableEq

/-- Modelled from the spec: `napalm_base.helpers.mac` (a field normalizer
living outside this repository) returns the canonical MAC form; on the
colon/hyphen-separated hex pairs matched by `_RE_ARP` this is uppercasing
and replacing `-` with `:`. -/
def canonicalMac (s : String) : String :=
  String.mk (s.data.map (fun c => if c = '-' then ':' else c.toUpper))

/-- Modelled from the spec: `napalm_base.helpers.ip` (outside this
repository) canonicalizes an IP address string; on dotted-quad addresses
without leading zeros it returns its input unchanged, which is all the claim
exercises. -/
def canonicalIp (s : String) : String := s

/-- The address group
`\d\x7b1,3\x7d\.\d\x7b1,3\x7d\.\d\x7b1,3\x7d\.\d\x7b1,3\x7d`: returns the
matched text and the rest. -/
def parseIpDotted (l : List Char) : Option (List Char × List Char) := do
  let (o1, r1) ← parseIpOctet l
  let r2 ← expectDot r1
  let (o2, r3) ← parseIpOctet r2
  let r4 ← expectDot r3
  let (o3, r5) ← parseIpOctet r4
  let r6 ← expectDot r5
  let (o4, r7) ← parseIpOctet r6
  some (o1 ++ '.' :: (o2 ++ '.' :: (o3 ++ '.' :: o4)), r7)

/-- `\s+\S+\s+(?P<hwAddress>...)\s+\S+\s+` — everything of `_RE_ARP` between
the address and the interface: returns the MAC text and the rest. -/
def parseArpMiddle (s : List Char) : Option (List Char × List Char) := do
  let r1 ← expectWs s
  let r2 ← expectTok r1
  let r3 ← expectWs r2
  let (mac, r4) ← parseMacSegs 5 r3
  let r5 ← expectWs r4
  let r6 ← expectTok r5
  let r7 ← expectWs r6
  some (mac, r7)

/-- `_RE_ARP.match(line)` followed by the entry construction of
`get_arp_table`'s loop body (age is the literal `0.0`). -/
def parseArpLine (l : List Char) : Option ArpEntry :=
  match parseIpDotted l with
  | none => none
  | some (ip, r) =>
    match parseArpMiddle r with
    | none => none
    | some (mac, r2) =>
      let intf := r2.takeWhile (fun c => !isPySpace c)
      let rest := r2.dropWhile (fun c => !isPySpace c)
      if intf = [] then none
      else if rest = [] || rest = ['\n'] then
        some { interface := String.mk intf
               mac := canonicalMac (String.mk mac)
               ip := canonicalIp (String.mk ip)
               age := pyZeroFloat }
      else none

/-- `s.split('\n')`: every piece kept, including empty ones. -/
def splitNl : List Char → List (List Char)
  | [] => [[]]
  | c :: t =>
    if c = '\n' then [] :: splitNl t
    else
      match splitNl t with
      | [] => [[c]]
      | h :: r => (c :: h) :: r

/-- `get_arp_table`, over the outcome of `run_commands(['show arp'])`. -/
def get_arp_table (run : CmdOutcome) : Except PyError (List ArpEntry) :=
  match run with
  | CmdOutcome.ok output => Except.ok ((splitNl output.data).filterMap parseArpLine)
  | CmdOutcome.commandError _ =>
    -- `except pyeapi.eapilib.CommandError: return []`: the clause's name
    -- lookup fails before any matching can happen.
    if moduleBinds "pyeapi" then Except.ok []
    else Except.error (PyError.nameError "pyeapi")
  | CmdOutcome.failure msg =>
    if moduleBinds "pyeapi" then Except.error (PyError.uncaught msg)
    else Except.error (PyError.nameError "pyeapi")

/-! ## C9: get_ntp_stats (mos.py lines 401-445)

```
REGEX = (
    r'^\s?(\+|\*|x|-)?([a-zA-Z0-9\.+-:]+)'
    r'\s+([a-zA-Z0-9\.]+)\s+([0-9]\x7b1,2\x7d)'
    r'\s+(-|u)\s+([0-9h-]+)\s+([0-9]+)'
    r'\s+([0-9]+)\s+([0-9\.]+)\s+([0-9\.-]+)'
    r'\s+([0-9\.]+)\s?$'
)
...
ntp_assoc_lines = ntp_assoc.splitlines()[2:]
for ntp_assoc in ntp_assoc_lines:
    line_search = re.search(REGEX, ntp_assoc, re.I)
    if not line_search: continue
    ...
    except Exception: continue
```
With the `^...$` anchors and no MULTILINE flag, `re.search` can only match at
position 0 and to the end, so it is a whole-line match.  The flag is `re.I`,
so letter literals also match their other case.  In `[a-zA-Z0-9\.+-:]` the
trailing `+-:` is a character RANGE U+002B..U+003A (it also admits `,` and
`/`), exactly as Python interprets it. -/

def ntpMarkerChar (c : Char) : Bool := c = '+' || c = '*' || c.toLower = 'x' || c = '-'

def ntpRemoteChar (c : Char) : Bool :=
  c.isAlphanum || c = '.' || (43 ≤ c.toNat && c.toNat ≤ 58)

def ntpRefidChar (c : Char) : Bool := c.isAlphanum || c = '.'

def ntpWhenChar (c : Char) : Bool := c.isDigit || c.toLower = 'h' || c = '-'

def ntpNumDotChar (c : Char) : Bool := c.isDigit || c = '.'

def ntpNumDotDashChar (c : Char) : Bool := c.isDigit || c = '.' || c = '-'

/-- `class+`: a nonempty run of characters of the class. -/
def takeCls (p : Char → Bool) (s : List Char) : Option (List Char × List Char) :=
  let run := s.takeWhile p
  if run = [] then none else some (run, s.dropWhile p)

/-- `class+\s+`: a nonempty run followed by required whitespace.  The class
never contains whitespace, so greedy matching needs no backtracking here. -/
def takeField (p : Char → Bool) (s : List Char) : Option (List Char × List Char) := do
  let (run, r1) ← takeCls p s
  let r2 ← expectWs r1
  some (run, r2)

/-- `([0-9]\x7b1,2\x7d)\s+`: one or two digits then whitespace; a run of
three or more digits cannot match under any backtracking, since every
retained suffix would put a digit where `\s` is required. -/
def ntpStratum (s : List Char) : Option (List Char × List Char) :=
  let ds := s.takeWhile Char.isDigit
  if ds = [] || ds.length > 2 then none
  else (expectWs (s.dropWhile Char.isDigit)).map (fun r => (ds, r))

/-- `(-|u)\s+` under IGNORECASE. -/
def ntpType (s : List Char) : Option (Char × List Char) :=
  match s with
  | c :: t =>
    if c = '-' || c.toLower = 'u' then (expectWs t).map (fun r => (c, r)) else none
  | [] => none

/-- `\s?$`: an optional whitespace character and the end anchor, which in
Python also matches just before a final newline. -/
def pyOptWsEnd (r : List Char) : Bool :=
  match r with
  | [] => true
  | [c] => isPySpace c
  | [c, n] => isPySpace c && n = '\n'
  | _ => false

/-- The eleven captured groups of a matched NTP association line. -/
structure NtpGroups where
  marker : Option Char
  remote : String
  refid : String
  stratum : String
  type : String
  whenG : String
  hostpoll : String
  reach : String
  delay : String
  offset : String
  jitter : String
deriving DecidableEq

/-- Groups 2-4: remote, reference id, stratum. -/
def ntpStageA (s : List Char) : Option (List Char × List Char × List Char × List Char) := do
  let (remote, r1) ← takeField ntpRemoteChar s
  let (refid, r2) ← takeField ntpRefidChar r1
  let (stratum, r3) ← ntpStratum r2
  some (remote, refid, stratum, r3)

/-- Groups 5-8: type, when, hostpoll, reachability. -/
def ntpStageB (s : List Char) :
    Option (Char × List Char × List Char × List Char × List Char) := do
  let (ty, r1) ← ntpType s
  let (whenG, r2) ← takeField ntpWhenChar r1
  let (hostpoll, r3) ← takeField Char.isDigit r2
  let (reach, r4) ← takeField Char.isDigit r3
  some (ty, whenG, hostpoll, reach, r4)

/-- Groups 9-11 and the line end: delay, offset, jitter, `\s?$`. -/
def ntpStageC (s : List Char) : Option (List Char × List Char × List Char) := do
  let (delay, r1) ← takeField ntpNumDotChar s
  let (offset, r2) ← takeField ntpNumDotDashChar r1
  let (jitter, r3) ← takeCls ntpNumDotChar r2
  if pyOptWsEnd r3 then some (delay, offset, jitter) else none

/-- Groups 2 onward, with the marker group left empty. -/
def ntpStagesAll (s : List Char) : Option NtpGroups := do
  let (remote, refid, stratum, r1) ← ntpStageA s
  let (ty, whenG, hostpoll, reach, r2) ← ntpStageB r1
  let (delay, offset, jitter) ← ntpStageC r2
  some { marker := none, remote := String.mk remote, refid := String.mk refid,
         stratum := String.mk stratum, type := String.mk [ty],
         whenG := String.mk whenG, hostpoll := String.mk hostpoll,
         reach := String.mk reach, delay := String.mk delay,
         offset := String.mk offset, jitter := String.mk jitter }

/-- The optional marker `(\+|\*|x|-)?`, greedy: the engine first tries to
consume a marker character and, if the rest of the pattern then fails,
retries with the group empty (the remote class overlaps the marker set). -/
def parseNtpBody (s : List Char) : Option NtpGroups :=
  match s with
  | [] => none
  | c :: t =>
    if ntpMarkerChar c then
      match ntpStagesAll t with
      | some g => some { g with marker := some c }
      | none => ntpStagesAll s
    else ntpStagesAll s

/-- `re.search(REGEX, line, re.I)`, returning the groups.  The leading `^\s?`
is deterministic: if the first character is whitespace it must be consumed,
since no later pattern element matches whitespace. -/
def parseNtpLine (l : List Char) : Option NtpGroups :=
  match l with
  | c :: t => if isPySpace c then parseNtpBody t else parseNtpBody l
  | [] => none

structure NtpStat where
  remote : String
  synchronized : Bool
  referenceid : String
  stratum : Int
  type : String
  whenG : String
  hostpoll : Int
  reachability : Int
  delay : PyFloat
  offset : PyFloat
  jitter : PyFloat
deriving DecidableEq

/-- The record construction of the loop body: `synchronized` is
`line_groups[0] == '*'`, and the `int()`/`float()` conversions may raise, in
which case the `except Exception: continue` skips the line (`none` here). -/
def mkNtpStat (g : NtpGroups) : Option NtpStat :=
  match pyIntParse g.stratum.data, pyIntParse g.hostpoll.data, pyIntParse g.reach.data,
      pyFloatParse g.delay.data, pyFloatParse g.offset.data, pyFloatParse g.jitter.data with
  | some st, some hp, some re, some d, some o, some j =>
    some { remote := g.remote, synchronized := decide (g.marker = some '*'),
           referenceid := g.refid, stratum := st, type := g.type, whenG := g.whenG,
           hostpoll := hp, reachability := re, delay := d, offset := o, jitter := j }
  | _, _, _, _, _, _ => none

/-- One line of the loop: match, then convert; `none` means the line is
skipped. -/
def ntpLineToStat (l : List Char) : Option NtpStat := (parseNtpLine l).bind mkNtpStat

def ntpFromLines (ls : List (List Char)) : List NtpStat := ls.filterMap ntpLineToStat

/-- Drop a final empty piece, as `str.splitlines` does relative to a plain
split on the terminator. -/
def dropFinalEmpty : List (List Char) → List (List Char)
  | [] => []
  | [l] => if l = [] then [] else [l]
  | l :: t => l :: dropFinalEmpty t

/-- `s.splitlines()` (the device output uses `\n` terminators; the other
Unicode line boundaries Python would also split on do not occur). -/
def pySplitlinesL (s : List Char) : List (List Char) := dropFinalEmpty (splitNl s)

/-- `get_ntp_stats` over the text output of `show ntp associations`:
`splitlines()[2:]` then the per-line loop. -/
def get_ntp_stats (output : String) : List NtpStat :=
  ntpFromLines ((pySplitlinesL output.data).drop 2)

/-! ## C10: get_lldp_neighbors_detail (mos.py lines 289-336)

```
interfaces_split = re.split(r'^\*\s(\S+)$', neighbors_str, flags=re.MULTILINE)[1:]
interface_list = zip(*(iter(interfaces_split),) * 2)
for interface, interface_str in interface_list:
    lldp_neighbors_out[interface] = []
    for neighbor_str in interface_str.strip().split('\n\n'):
        info_dict = \x7b\x7d
        for info_line in neighbor_str.strip().splitlines():
            key, value = info_line.split(':', 1)
            info_dict[key.strip()] = value.strip()
        try:
            capabilities = ast.literal_eval(info_dict.get('system capability', '\x7b\x7d'))
        except:
            capabilities = \x7b\x7d
        ...
```
The name `ast` is never imported; looking it up inside the `try` raises
`NameError`, which the bare `except:` turns into the empty dict — for every
input.  `ast.literal_eval` itself is therefore abstracted as an arbitrary
function parameter `literalEval`; the theorems quantify over it.

`re.split` with the capturing group produces
`[preamble, name1, piece1, name2, piece2, ...]`; each `piece` keeps the
newlines adjacent to the header matches, but its consumer immediately calls
`.strip()`, so a piece is modelled by its list of lines (joined with `\n`).
A header line matches `^\*\s(\S+)$` under MULTILINE: `*`, one whitespace
character, a nonempty non-whitespace run, end of line. -/

/-- `line.split(':', 1)`: text before the first colon and everything after
it; `none` when the line has no colon (the 2-tuple unpack then raises
`ValueError`). -/
def splitFirstColon : List Char → Option (List Char × List Char)
  | [] => none
  | ':' :: t => some ([], t)
  | c :: t => (splitFirstColon t).map (fun p => (c :: p.1, p.2))

/-- `s.split('\n\n')`: non-overlapping leftmost splitting on a blank line. -/
def splitNlNl : List Char → List (List Char)
  | [] => [[]]
  | '\n' :: '\n' :: t => [] :: splitNlNl t
  | c :: t =>
    match splitNlNl t with
    | [] => [[c]]
    | h :: r => (c :: h) :: r

/-- `s.replace(',', ', ')`. -/
def pyReplaceCommas : List Char → List Char
  | [] => []
  | ',' :: t => ',' :: ' ' :: pyReplaceCommas t
  | c :: t => c :: pyReplaceCommas t

/-- `re.sub(r'\s*\([^\)]*\)\s*', '', s)` with fuel (the string length)
bounding the number of deletions, each of which consumes at least one
character: repeatedly locate the first `(` that has some `)` after it, and
delete from the start of the whitespace run before the `(` through the first
`)` and the whitespace after it.  If the first `(` has no closing `)`, no
later one has either, and the rest is left unchanged. -/
def stripParensF : Nat → List Char → List Char
  | 0, s => s
  | fuel + 1, s =>
    let pre := s.takeWhile (fun c => c ≠ '(')
    match s.dropWhile (fun c => c ≠ '(') with
    | [] => s
    | _ :: afterOpen =>
      match afterOpen.dropWhile (fun c => c ≠ ')') with
      | [] => s
      | _ :: post =>
        (pre.reverse.dropWhile isPySpace).reverse
          ++ stripParensF fuel (post.dropWhile isPySpace)

def stripParens (s : List Char) : List Char := stripParensF s.length s

/-- The interface name captured by a `^\*\s(\S+)$` header line. -/
def headerName (l : List Char) : Option String :=
  match l with
  | '*' :: c :: rest =>
    if isPySpace c && rest ≠ [] && rest.all (fun x => !isPySpace x) then
      some (String.mk rest)
    else none
  | _ => none

/-- Pair each header with its following non-header lines. -/
def lldpGroupsGo (name : String) (bodyRev : List (List Char)) :
    List (List Char) → List (String × List (List Char))
  | [] => [(name, bodyRev.reverse)]
  | l :: t =>
    match headerName l with
    | some nm => (name, bodyRev.reverse) :: lldpGroupsGo nm [] t
    | none => lldpGroupsGo name (l :: bodyRev) t

/-- All `(interface, block lines)` pairs; lines before the first header are
the `[0]` piece that `[1:]` drops. -/
def lldpGroups : List (List Char) → List (String × List (List Char))
  | [] => []
  | l :: t =>
    match headerName l with
    | some nm => lldpGroupsGo nm [] t
    | none => lldpGroups t

def intercalateNl : List (List Char) → List Char
  | [] => []
  | [l] => l
  | l :: t => l ++ '\n' :: intercalateNl t

structure TlvDict where
  parent_interface : String
  remote_port : String
  remote_port_description : String
  remote_chassis_id : String
  remote_system_name_ : String
  remote_system_description : String
  remote_system_capab : String
  remote_system_enabled_capab : String
deriving DecidableEq

/-- The `info_dict` loop; a line without `:` raises `ValueError`. -/
def buildInfoDictGo (d : List (String × String)) :
    List (List Char) → Except String (List (String × String))
  | [] => Except.ok d
  | l :: t =>
    match splitFirstColon l with
    | none => Except.error "ValueError: not enough values to unpack"
    | some (k, v) =>
      buildInfoDictGo (dictUpd d (String.mk (pyStrip k)) (String.mk (pyStrip v))) t

/-- The capabilities decode: inside the `try`, the lookup of the unbound
name `ast` raises `NameError` before `literalEval` could ever run, and the
bare `except:` maps any failure to the empty dict. -/
def lldpCapabilities (literalEval : String → Option (List (String × String)))
    (infoDict : List (String × String)) : List (String × String) :=
  if moduleBinds "ast" then
    match literalEval (dictGet infoDict "system capability" "\x7b\x7d") with
    | some d => d
    | none => []
  else []

/-- One neighbor block: build `info_dict`, decode capabilities, build the
TLV record (the source's output key is literally `remote_system_name_`). -/
def processNeighborStr (literalEval : String → Option (List (String × String)))
    (iface : String) (nstr : List Char) : Except String TlvDict :=
  match buildInfoDictGo [] (pySplitlinesL (pyStrip nstr)) with
  | Except.error e => Except.error e
  | Except.ok infoDict =>
    let capabilities := lldpCapabilities literalEval infoDict
    Except.ok
      { parent_interface := iface
        remote_port := String.mk (stripParens (dictGet infoDict "port id" "").data)
        remote_port_description := dictGet infoDict "port description" ""
        remote_chassis_id := String.mk (stripParens (dictGet infoDict "chassis id" "").data)
        remote_system_name_ := dictGet infoDict "system name" ""
        remote_system_description := dictGet infoDict "system description" ""
        remote_system_capab :=
          String.mk (pyReplaceCommas (dictGet capabilities "capabilities" "").data)
        remote_system_enabled_capab :=
          String.mk (pyReplaceCommas (dictGet capabilities "enabled" "").data) }

def mapMEx {α β : Type} (f : α → Except String β) : List α → Except String (List β)
  | [] => Except.ok []
  | a :: t =>
    match f a with
    | Except.error e => Except.error e
    | Except.ok b =>
      match mapMEx f t with
      | Except.error e => Except.error e
      | Except.ok bs => Except.ok (b :: bs)

/-- `interface_str.strip().split('\n\n')`, each piece processed in order. -/
def neighborsOfBlock (literalEval : String → Option (List (String × String)))
    (iface : String) (body : List (List Char)) : Except String (List TlvDict) :=
  mapMEx (processNeighborStr literalEval iface)
    (splitNlNl (pyStrip (intercalateNl body)))

/-- The outer loop over `(interface, interface_str)` pairs, building the
output dict. -/
def lldpDetailGo (literalEval : String → Option (List (String × String)))
    (out : List (String × List TlvDict)) :
    List (String × List (List Char)) → Except String (List (String × List TlvDict))
  | [] => Except.ok out
  | g :: t =>
    match neighborsOfBlock literalEval g.1 g.2 with
    | Except.error e => Except.error e
    | Except.ok recs => lldpDetailGo literalEval (dictUpd out g.1 recs) t

/-- `get_lldp_neighbors_detail`, parameterized over the (unreachable)
literal evaluator. -/
def get_lldp_neighbors_detail
    (literalEval : String → Option (List (String × String))) (s : String) :
    Except String (List (String × List TlvDict)) :=
  lldpDetailGo literalEval [] (lldpGroups (splitNl s.data))

/-! ## Theorems for claims C2, C4, C7, C8 -/

/-- Claim C7: for every interface-status row, `is_up` is true iff the `rx`
value starts with `"up"`; when it does, `is_enabled` is also true; and
`is_enabled` is false exactly when the interface is not up and `"shutdown"`
occurs in the rx-state text. -/
theorem get_interfaces_up_enabled (rx : String) :
    ((interfaceFlags rx).1 = true ↔ pyStartsWith rx "up" = true)
    ∧ ((interfaceFlags rx).1 = true → (interfaceFlags rx).2 = true)
    ∧ ((interfaceFlags rx).2 = false ↔
        ((interfaceFlags rx).1 = false ∧ containsSub rx.data "shutdown".data = true)) := by
  unfold interfaceFlags
  cases h : pyStartsWith rx "up" <;>
    cases hc : containsSub rx.data "shutdown".data <;> simp [h, hc]

/-- Witness for C7: the implication conjunct discharged at concrete rx
values: an rx starting with `"up"` gives `is_enabled = true`, and a shut-down
rx gives `is_enabled = false`. -/
theorem get_interfaces_up_enabled_witness :
    (interfaceFlags "up 10G").2 = true ∧ (interfaceFlags "down (shutdown)").2 = false :=
  ⟨(get_interfaces_up_enabled "up 10G").2.1 (by decide),
   (get_interfaces_up_enabled "down (shutdown)").2.2.mpr (by decide)⟩

/-- Claim C8: `get_lldp_neighbors` drops every row whose neighbor-device or
neighbor-port field is empty (the output is unchanged by deleting them), and
on rows `[("e1","A","p1"), ("e2","","")]` the output has exactly the one port
key `"e1"`. -/
theorem lldp_neighbors_drop_empty :
    (∀ rows : List LldpRow,
        get_lldp_neighbors rows = get_lldp_neighbors (rows.filter lldpRowKept))
    ∧ get_lldp_neighbors [⟨"e1", "A", "p1"⟩, ⟨"e2", "", ""⟩] = [("e1", [("A", "p1")])] := by
  constructor
  · intro rows
    suffices h : ∀ (l : List LldpRow) (acc : List (String × List (String × String))),
        List.foldl lldpStep acc l = List.foldl lldpStep acc (l.filter lldpRowKept) from
      h rows []
    intro l
    induction l with
    | nil => intro acc; rfl
    | cons n t ih =>
      intro acc
      cases hk : lldpRowKept n
      · have hstep : lldpStep acc n = acc := by simp [lldpStep, hk]
        simp [List.filter_cons, hk, List.foldl_cons, hstep, ih]
      · simp [List.filter_cons, hk, List.foldl_cons, ih]
  · decide

/-- Claim C4 counterexample: the claim maps `"100"` to 100 and `"1k"` to 10,
but `_parse_mm_speed` returns `int(100*1e-6) = 0` and `int(1*1e-3) = 0`. -/
theorem parse_mm_speed_counterexample :
    parse_mm_speed "100" = Except.ok 0 ∧ parse_mm_speed "1k" = Except.ok 0
    ∧ (Except.ok 0 : Except String Nat) ≠ Except.ok 100
    ∧ (Except.ok 0 : Except String Nat) ≠ Except.ok 10 := by
  refine ⟨rfl, rfl, by simp, by simp⟩

/-- Claim C4 as amended: the speed strings `"0"`, `"100"`, `"1k"`, `"10G"`,
`"1T"` map to 0, 0, 0, 10000, 1000000 Mbit/s (unit scale none→1e-6, k→1e-3,
M→1, G→1000, T→1e6, truncated to an integer), and every speed string not
matching the `<digits><optional single non-digit>` pattern maps to 0. -/
theorem parse_mm_speed_values :
    parse_mm_speed "0" = Except.ok 0 ∧ parse_mm_speed "100" = Except.ok 0
    ∧ parse_mm_speed "1k" = Except.ok 0 ∧ parse_mm_speed "10G" = Except.ok 10000
    ∧ parse_mm_speed "1T" = Except.ok 1000000
    ∧ (∀ s : String, speedMatch s.data = none → parse_mm_speed s = Except.ok 0) := by
  refine ⟨rfl, rfl, rfl, rfl, rfl, ?_⟩
  intro s h
  simp [parse_mm_speed, h]

/-- Witness for C4's amended theorem: an unparsable speed string maps to 0. -/
theorem parse_mm_speed_values_witness :
    parse_mm_speed "no digits" = Except.ok 0 :=
  parse_mm_speed_values.2.2.2.2.2 "no digits" (by decide)

/-- Claim C2 (code behaviour at the failing input, and the accepted-selector
round trip): `get_config "bogus"` does NOT raise — line 549 constructs
`Exception(...)` without `raise`, so it falls through and returns every
section empty; each accepted selector returns exactly the requested
section(s) populated and the others (including `candidate`) empty. -/
theorem get_config_selector_behavior :
    (∀ device : String → String, get_config "bogus" device = Except.ok ⟨"", "", ""⟩)
    ∧ (∀ device : String → String, get_config "all" device =
        Except.ok ⟨device "show startup-config", device "show running-config", ""⟩)
    ∧ (∀ device : String → String, get_config "startup" device =
        Except.ok ⟨device "show startup-config", "", ""⟩)
    ∧ (∀ device : String → String, get_config "running" device =
        Except.ok ⟨"", device "show running-config", ""⟩) :=
  ⟨fun _ => rfl, fun _ => rfl, fun _ => rfl, fun _ => rfl⟩

/-- Claim C1 (code behaviour at the failing input): the uptime conversion in
`get_facts` drops the minutes group — `"2 days, 03:04:05"` yields
2*86400 + 3*3600 + 5 = 183605 seconds, not the claimed 183845, and
`"03:04:05"` yields 10805, not the claimed 11045 (days do default to 0 when
absent). -/
theorem get_facts_uptime_drops_minutes :
    get_facts_uptime "2 days, 03:04:05" = some 183605
    ∧ get_facts_uptime "03:04:05" = some 10805
    ∧ (183605 : Nat) ≠ 2 * 86400 + 3 * 3600 + 4 * 60 + 5
    ∧ (10805 : Nat) ≠ 3 * 3600 + 4 * 60 + 5 :=
  ⟨by decide, by decide, by decide, by decide⟩

theorem dictGet_of_lookup_none {α : Type} (m : List (String × α)) (k : String)
    (d : α) (h : lookupD m k = none) : dictGet m k d = d := by
  induction m with
  | nil => rfl
  | cons p t ih =>
    obtain ⟨k', v⟩ := p
    by_cases hk : k' = k
    · simp [lookupD, hk] at h
    · simp only [lookupD, hk, if_false] at h
      simpa [dictGet, hk] using ih h

/-- Claim C5: in every `get_interfaces_counters` row, `tx_errors` and
`rx_errors` are both sourced from the errors payload's `tx` field (so they
are equal), an interface missing from the errors payload gets -1 for both,
and `tx_discards`/`rx_discards` are always -1. -/
theorem counters_errors_from_tx (counters : List (String × CountersRow))
    (errors : List (String × ErrRow)) (iface : String) (row : IfCounters)
    (h : lookupD (get_interfaces_counters counters errors) iface = some row) :
    row.tx_errors = errTx errors iface ∧ row.rx_errors = errTx errors iface
    ∧ row.rx_errors = row.tx_errors
    ∧ (lookupD errors iface = none → row.tx_errors = -1 ∧ row.rx_errors = -1)
    ∧ row.tx_discards = -1 ∧ row.rx_discards = -1 := by
  induction counters with
  | nil => simp [get_interfaces_counters, lookupD] at h
  | cons p t ih =>
    by_cases hk : p.1 = iface
    · simp only [get_interfaces_counters, List.map_cons, lookupD, hk, if_true,
        Option.some.injEq] at h
      subst h
      refine ⟨by simp [mkIfCounters, hk], by simp [mkIfCounters, hk],
        by simp [mkIfCounters], ?_, by simp [mkIfCounters], by simp [mkIfCounters]⟩
      intro hnone
      simp [mkIfCounters, hk, errTx, dictGet_of_lookup_none errors iface _ hnone]
    · simp only [get_interfaces_counters, List.map_cons, lookupD, hk, if_false] at h
      exact ih h

def wCounters : List (String × CountersRow) :=
  [("et1", ⟨some 10, some 20, none, none, none, none, none, none⟩)]

def wErrors : List (String × ErrRow) := [("et1", ⟨some 5, some 7⟩)]

def wRow : IfCounters := ⟨5, 5, -1, -1, 10, 20, -1, -1, -1, -1, -1, -1⟩

/-- Witness for C5 at a concrete input (where the errors payload's `rx` field
is 7, different from its `tx` field 5, and both reported error counters
nevertheless come out as the `tx` value). -/
theorem counters_errors_from_tx_witness :
    wRow.tx_errors = errTx wErrors "et1" ∧ wRow.rx_errors = errTx wErrors "et1"
    ∧ wRow.rx_errors = wRow.tx_errors
    ∧ (lookupD wErrors "et1" = none → wRow.tx_errors = -1 ∧ wRow.rx_errors = -1)
    ∧ wRow.tx_discards = -1 ∧ wRow.rx_discards = -1 :=
  counters_errors_from_tx wCounters wErrors "et1" wRow (by decide)

/-- Claim C3 (code behaviour): a non-list `commands` argument is rejected
with `TypeError` before anything is executed (for every device behaviour);
but when the device rejects a command, the call raises
`NameError("pyeapi")` — the first `except` clause's name lookup fails because
`pyeapi` is never imported — so no "Invalid command" entry is recorded and no
`CommandErrorException` (itself also unbound) is raised. -/
theorem cli_failure_behavior :
    (∀ (device : String → CmdOutcome) (d : String),
        cli device (PyVal.nonList d)
          = Except.error (PyError.typeError "Please enter a valid list of commands!"))
    ∧ cli (fun _ => CmdOutcome.commandError "invalid command") (PyVal.list ["bad_cmd"])
        = Except.error (PyError.nameError "pyeapi")
    ∧ moduleBinds "pyeapi" = false
    ∧ moduleBinds "CommandErrorException" = false :=
  ⟨fun _ _ => rfl, rfl, by decide, by decide⟩

/-- Claim C6 (code behaviour): when the device rejects `show arp`,
`get_arp_table` raises `NameError("pyeapi")` instead of returning the empty
list (the `except pyeapi.eapilib.CommandError` clause cannot be evaluated);
on successful output, non-matching lines are skipped and the sample line
parses to interface `"eth3"`, ip `"10.0.0.1"`, the canonical MAC
`"AA:BB:CC:DD:EE:FF"` and age `0.0`. -/
theorem arp_table_behavior :
    get_arp_table (CmdOutcome.commandError "unconverted command")
      = Except.error (PyError.nameError "pyeapi")
    ∧ moduleBinds "pyeapi" = false
    ∧ get_arp_table (CmdOutcome.ok
        ("Address  HWtype  HWaddress  Flags Mask  Iface\n"
          ++ "10.0.0.1  ether  AA:BB:CC:DD:EE:FF  C  eth3\n"
          ++ "not an arp line"))
      = Except.ok [⟨"eth3", "AA:BB:CC:DD:EE:FF", "10.0.0.1", pyZeroFloat⟩]
    ∧ parseArpLine "10.0.0.1  ether  AA:BB:CC:DD:EE:FF  C  eth3".data
      = some ⟨"eth3", "AA:BB:CC:DD:EE:FF", "10.0.0.1", pyZeroFloat⟩ :=
  ⟨rfl, by decide, rfl, rfl⟩

theorem strDataAppend (a b : String) : (a ++ b).data = a.data ++ b.data := rfl

theorem splitNl_ne_nil (s : List Char) : splitNl s ≠ [] := by
  cases s with
  | nil => simp [splitNl]
  | cons c t =>
    rw [splitNl]
    by_cases h : c = '\n'
    · simp [h]
    · simp only [h, if_false]
      cases hs : splitNl t <;> simp

theorem splitNl_append_cons (h t : List Char) (hn : '\n' ∉ h) :
    splitNl (h ++ '\n' :: t) = h :: splitNl t := by
  induction h with
  | nil => simp [splitNl]
  | cons c h' ih =>
    have hc : c ≠ '\n' := fun e => hn (by simp [e])
    have hn' : '\n' ∉ h' := fun m => hn (List.mem_cons_of_mem _ m)
    simp only [List.cons_append]
    rw [splitNl, if_neg hc, ih hn']

theorem dropFinalEmpty_cons (a : List Char) (l : List (List Char)) (hl : l ≠ []) :
    dropFinalEmpty (a :: l) = a :: dropFinalEmpty l := by
  cases l with
  | nil => exact absurd rfl hl
  | cons b t => rfl

theorem pySplitlines_cons (h t : List Char) (hn : '\n' ∉ h) :
    pySplitlinesL (h ++ '\n' :: t) = h :: pySplitlinesL t := by
  unfold pySplitlinesL
  rw [splitNl_append_cons h t hn, dropFinalEmpty_cons h (splitNl t) (splitNl_ne_nil t)]

/-- Claim C9: a peer line is reported with `synchronized = true` iff its
sync-marker group is `*`; the first two lines of the command output are
skipped; and a line failing the eleven-group pattern or a numeric conversion
contributes nothing while the remaining lines are still processed. -/
theorem ntp_stats_skip_and_sync :
    (∀ (g : NtpGroups) (st : NtpStat), mkNtpStat g = some st →
        (st.synchronized = true ↔ g.marker = some '*'))
    ∧ (∀ h1 h2 rest : String, '\n' ∉ h1.data → '\n' ∉ h2.data →
        get_ntp_stats (h1 ++ "\n" ++ (h2 ++ ("\n" ++ rest)))
          = ntpFromLines (pySplitlinesL rest.data))
    ∧ (∀ (pre post : List (List Char)) (bad : List Char), ntpLineToStat bad = none →
        ntpFromLines (pre ++ bad :: post) = ntpFromLines (pre ++ post)) := by
  refine ⟨?_, ?_, ?_⟩
  · intro g st h
    unfold mkNtpStat at h
    split at h
    · injection h with h'
      subst h'
      simp
    · cases h
  · intro h1 h2 rest hn1 hn2
    have hnl : ("\n" : String).data = ['\n'] := rfl
    have e : (h1 ++ "\n" ++ (h2 ++ ("\n" ++ rest))).data
        = h1.data ++ '\n' :: (h2.data ++ '\n' :: rest.data) := by
      simp [strDataAppend, hnl]
    rw [get_ntp_stats, e, pySplitlines_cons _ _ hn1, pySplitlines_cons _ _ hn2]
    rfl
  · intro pre post bad h
    simp [ntpFromLines, List.filterMap_append, List.filterMap_cons, h]

/-- Witness for C9 at concrete inputs: a starred line yields a synchronized
stat; two header lines are dropped; an unmatched line is skipped. -/
theorem ntp_stats_skip_and_sync_witness :
    (NtpStat.mk "rem" true "ref" 3 "u" "10" 64 377
        ⟨false, 1, 0⟩ ⟨false, 2, 0⟩ ⟨false, 3, 0⟩).synchronized = true
    ∧ get_ntp_stats ("remote  refid  st t when poll reach delay offset jitter" ++ "\n"
        ++ ("==========" ++ ("\n" ++ "*rem ref 3 u 10 64 377 1 2 3")))
      = ntpFromLines (pySplitlinesL "*rem ref 3 u 10 64 377 1 2 3".data)
    ∧ ntpFromLines ([] ++ "bad line".data :: []) = ntpFromLines ([] ++ []) :=
  ⟨(ntp_stats_skip_and_sync.1
      ⟨some '*', "rem", "ref", "3", "u", "10", "64", "377", "1", "2", "3"⟩ _
      (by decide)).mpr rfl,
   ntp_stats_skip_and_sync.2.1 _ _ _ (by decide) (by decide),
   ntp_stats_skip_and_sync.2.2 [] [] _ (by decide)⟩

theorem lldpCapabilities_eq_nil (literalEval : String → Option (List (String × String)))
    (infoDict : List (String × String)) : lldpCapabilities literalEval infoDict = [] := rfl

theorem processNeighbor_capab_empty
    (literalEval : String → Option (List (String × String))) (iface : String)
    (nstr : List Char) (r : TlvDict)
    (h : processNeighborStr literalEval iface nstr = Except.ok r) :
    r.remote_system_capab = "" ∧ r.remote_system_enabled_capab = "" := by
  unfold processNeighborStr at h
  split at h
  · cases h
  · injection h with h'
    subst h'
    exact ⟨rfl, rfl⟩

theorem mapMEx_mem {α β : Type} (f : α → Except String β) (P : β → Prop)
    (hf : ∀ a b, f a = Except.ok b → P b) :
    ∀ (l : List α) (bs : List β), mapMEx f l = Except.ok bs → ∀ b ∈ bs, P b := by
  intro l
  induction l with
  | nil =>
    intro bs h b hb
    injection h with h'
    subst h'
    cases hb
  | cons a t ih =>
    intro bs h b hb
    rw [mapMEx] at h
    cases hfa : f a with
    | error e => rw [hfa] at h; cases h
    | ok b1 =>
      rw [hfa] at h
      cases hmt : mapMEx f t with
      | error e => rw [hmt] at h; cases h
      | ok bs1 =>
        rw [hmt] at h
        injection h with h'
        subst h'
        rcases List.mem_cons.mp hb with rfl | hmem
        · exact hf a b hfa
        · exact ih bs1 hmt b hmem

theorem dictUpd_mem {α : Type} (m : List (String × α)) (k : String) (v : α)
    (p : String × α) (hp : p ∈ dictUpd m k v) : p.2 = v ∨ p ∈ m := by
  induction m with
  | nil =>
    simp [dictUpd] at hp
    subst hp
    left
    rfl
  | cons q t ih =>
    obtain ⟨k', v'⟩ := q
    rw [dictUpd] at hp
    by_cases hq : k' = k
    · rw [if_pos hq] at hp
      rcases List.mem_cons.mp hp with rfl | hmem
      · left; rfl
      · right; exact List.mem_cons_of_mem _ hmem
    · rw [if_neg hq] at hp
      rcases List.mem_cons.mp hp with rfl | hmem
      · right; exact List.mem_cons_self _ _
      · rcases ih hmem with h2 | h2
        · left; exact h2
        · right; exact List.mem_cons_of_mem _ h2

theorem lldpDetailGo_inv (literalEval : String → Option (List (String × String)))
    (P : TlvDict → Prop)
    (hP : ∀ iface nstr r, processNeighborStr literalEval iface nstr = Except.ok r → P r) :
    ∀ (gs : List (String × List (List Char))) (out out' : List (String × List TlvDict)),
      (∀ p ∈ out, ∀ r ∈ p.2, P r) →
      lldpDetailGo literalEval out gs = Except.ok out' →
      ∀ p ∈ out', ∀ r ∈ p.2, P r := by
  intro gs
  induction gs with
  | nil =>
    intro out out' hout h
    injection h with h'
    subst h'
    exact hout
  | cons g t ih =>
    intro out out' hout h
    rw [lldpDetailGo] at h
    split at h
    · cases h
    · rename_i recs hrecs
      refine ih _ _ ?_ h
      intro p hp r hr
      rcases dictUpd_mem out g.1 recs p hp with h2 | h2
      · have hall : ∀ b ∈ recs, P b :=
          mapMEx_mem _ P (fun a b hab => hP g.1 a b hab) _ recs hrecs
        exact hall r (h2 ▸ hr)
      · exact hout p h2 r hr

/-- Claim C10: for every input text and every possible behaviour of the
literal evaluator, every neighbor record returned by
`get_lldp_neighbors_detail` has empty `remote_system_capab` and
`remote_system_enabled_capab`: the unbound name `ast` makes the decode raise
`NameError` inside the `try`, and the bare `except:` maps that to the empty
capabilities dict. -/
theorem lldp_detail_capabilities_always_empty
    (literalEval : String → Option (List (String × String))) (s : String)
    (out : List (String × List TlvDict))
    (h : get_lldp_neighbors_detail literalEval s = Except.ok out) :
    ∀ p ∈ out, ∀ r ∈ p.2,
      r.remote_system_capab = "" ∧ r.remote_system_enabled_capab = "" :=
  lldpDetailGo_inv literalEval _
    (fun iface nstr r hr => processNeighbor_capab_empty literalEval iface nstr r hr)
    (lldpGroups (splitNl s.data)) [] out (by simp) h

def wLldpEval : String → Option (List (String × String)) :=
  fun _ => some [("capabilities", "Bridge,Router"), ("enabled", "Router")]

def wLldpText : String :=
  "* eth1\nchassis id: 00:11:22:33:44:55 (MAC)\nport id: p1 (local)\nsystem capability: \x7b'capabilities': 'Bridge,Router', 'enabled': 'Router'\x7d"

def wLldpRec : TlvDict := ⟨"eth1", "p1", "", "00:11:22:33:44:55", "", "", "", ""⟩

/-- Witness for C10: a concrete neighbor text whose evaluator would return a
nonempty capabilities dict, yet the returned record's capability fields are
empty. -/
theorem lldp_detail_capabilities_witness :
    wLldpRec.remote_system_capab = "" ∧ wLldpRec.remote_system_enabled_capab = "" :=
  lldp_detail_capabilities_always_empty wLldpEval wLldpText [("eth1", [wLldpRec])]
    rfl ("eth1", [wLldpRec]) (by simp) wLldpRec (by simp)

end NapalmMos
